import Mathlib

set_option linter.unusedVariables false

/-- Type tags of placeholders: integer, float, word, untyped. -/
inductive TypeTag where
  | d | f | w | any
  deriving DecidableEq, Repr

/-- Segment of a compiled pattern: literal text or a named placeholder. -/
inductive Segment where
  | lit : List Char → Segment
  | ph : String → TypeTag → Segment
  deriving DecidableEq, Repr

/-- Python values that step handlers receive and store. -/
inductive PyVal where
  | int : Int → PyVal
  | num : ℚ → PyVal
  | str : String → PyVal
  | bool : Bool → PyVal
  deriving DecidableEq, Repr

/-- A helper that prepends a character to the leading literal segment. -/
def consLitChar (c : Char) : List Segment → List Segment
  | Segment.lit cs :: rest => Segment.lit (c :: cs) :: rest
  | segs => Segment.lit [c] :: segs

/-- Modelled from the spec: placeholder body name:tag; an unknown type tag
fails compilation (PatternError). -/
def mkPh (inside : List Char) : Option Segment :=
  match inside.splitOn ':' with
  | [name] => some (Segment.ph (String.mk name) TypeTag.any)
  | [name, tag] =>
    match tag with
    | ['d'] => some (Segment.ph (String.mk name) TypeTag.d)
    | ['f'] => some (Segment.ph (String.mk name) TypeTag.f)
    | ['w'] => some (Segment.ph (String.mk name) TypeTag.w)
    | _ => none
  | _ => none

/-- Modelled from the spec: the Pattern Compiler (spec 4.1). The first
argument is the scan mode: none while consuming literal characters, some acc
while inside an open placeholder whose body so far is acc (reversed). An
opening brace starts a placeholder; an unclosed brace or an unknown type tag
fails compilation (PatternError). -/
def compileAux : Option (List Char) → List Char → Option (List Segment)
  | none, [] => some []
  | none, c :: rest =>
    if c = '\x7b' then compileAux (some []) rest
    else (compileAux none rest).map (consLitChar c)
  | some _, [] => none
  | some acc, c :: rest =>
    if c = '\x7d' then
      (mkPh acc.reverse).bind (fun seg => (compileAux none rest).map (seg :: ·))
    else compileAux (some (c :: acc)) rest

/-- Modelled from the spec: compile a pattern string into segments. -/
def compilePattern (s : String) : Option (List Segment) :=
  compileAux none s.data

example : compilePattern "ab \x7bn:d\x7d c" =
    some [Segment.lit ['a','b',' '], Segment.ph "n" TypeTag.d, Segment.lit [' ','c']] := by
  decide

/-- Numeric value of a list of ASCII digits. -/
def natVal (ds : List Char) : Nat :=
  ds.foldl (fun n c => n * 10 + (c.toNat - 48)) 0

/-- Modelled from the spec: conversion rule for the d tag (spec 4.1): one or
more ASCII digits, optionally a leading minus sign, converted to a signed
integer; anything else fails the conversion. -/
def convertInt (slot : List Char) : Option PyVal :=
  match slot with
  | '-' :: ds =>
    if ds ≠ [] ∧ ds.all Char.isDigit then some (PyVal.int (-(natVal ds : Int))) else none
  | ds =>
    if ds ≠ [] ∧ ds.all Char.isDigit then some (PyVal.int (natVal ds : Int)) else none

/-- Modelled from the spec: conversion rule for the f tag (spec 4.1): digits
with an optional single decimal point and an optional leading minus sign;
floating-point values are modelled as exact rationals, built as
numerator-over-power-of-ten. -/
def convertFloat (slot : List Char) : Option PyVal :=
  let core : List Char → Option (Int × Nat) := fun ds =>
    let ip := ds.takeWhile Char.isDigit
    match ds.drop ip.length with
    | [] => if ip ≠ [] then some ((natVal ip : Int), 1) else none
    | '.' :: fp =>
      if (ip ≠ [] ∨ fp ≠ []) ∧ fp.all Char.isDigit then
        some (((natVal ip * 10 ^ fp.length + natVal fp : Nat) : Int), 10 ^ fp.length)
      else none
    | _ => none
  match slot with
  | '-' :: ds => (core ds).map (fun p => PyVal.num (mkRat (-p.1) p.2))
  | ds => (core ds).map (fun p => PyVal.num (mkRat p.1 p.2))

/-- Character class of the w tag: ASCII letters, digits and underscore. -/
def isWordChar (c : Char) : Bool :=
  c.isAlphanum || c = '_'

/-- Modelled from the spec: conversion of a slot under a type tag (spec 4.1).
The w tag takes one or more word characters; an untyped slot takes the raw
text. A none result is a ConversionError: the candidate slot is rejected. -/
def convertSlot (tag : TypeTag) (slot : List Char) : Option PyVal :=
  match tag with
  | TypeTag.d => convertInt slot
  | TypeTag.f => convertFloat slot
  | TypeTag.w =>
    if slot ≠ [] ∧ slot.all isWordChar then some (PyVal.str (String.mk slot)) else none
  | TypeTag.any => if slot ≠ [] then some (PyVal.str (String.mk slot)) else none

/-- Modelled from the spec: candidate (slot, remainder) splits of the input
for one placeholder, each slot nonempty. Untyped placeholders are non-greedy
(shortest slot first); typed placeholders are greedy but bounded by what
follows (longest slot first). -/
def candSplits (tag : TypeTag) (cs : List Char) : List (List Char × List Char) :=
  let all := (List.range cs.length).map (fun i => (cs.take (i + 1), cs.drop (i + 1)))
  match tag with
  | TypeTag.any => all
  | _ => all.reverse

/-- Modelled from the spec: consume a literal segment verbatim, returning the
remaining input. -/
def dropLit : List Char → List Char → Option (List Char)
  | [], cs => some cs
  | _, [] => none
  | l :: ls, c :: cs => if l = c then dropLit ls cs else none

/-- Modelled from the spec: match a compiled pattern against a sentence
(spec 4.1 and the section 3 invariant). Literal segments are matched
verbatim; a placeholder consumes a nonempty slot that converts under its
type tag and still lets the rest of the pattern match the rest of the input;
the whole sentence must be consumed. Returns the extracted (name, value)
pairs in pattern order, or none when the sentence does not conform. -/
def matchSegs : List Segment → List Char → Option (List (String × PyVal))
  | [], cs => if cs = [] then some [] else none
  | Segment.lit l :: rest, cs =>
    match dropLit l cs with
    | some cs2 => matchSegs rest cs2
    | none => none
  | Segment.ph name tag :: rest, cs =>
    (candSplits tag cs).findSome? (fun p =>
      match convertSlot tag p.1 with
      | some v => (matchSegs rest p.2).map (fun vs => (name, v) :: vs)
      | none => none)

example :
    (compilePattern "the first number is \x7bnumber:d\x7d").bind
      (fun segs => matchSegs segs ("the first number is 5").data) =
    some [("number", PyVal.int 5)] := by decide

example :
    (compilePattern "a file named \x7bfilename\x7d exists").bind
      (fun segs => matchSegs segs ("a file named notes.txt exists").data) =
    some [("filename", PyVal.str "notes.txt")] := by decide

example :
    (compilePattern "the price is \x7bprice:f\x7d").bind
      (fun segs => matchSegs segs ("the price is 19.99").data) =
    some [("price", PyVal.num (mkRat 1999 100))] := by decide

/-- A Binding: a keyword, the registered pattern text, its compiled segments
and the handler it maps to (spec section 3). Handlers are identified by
module-qualified function name. -/
structure Binding where
  keyword : String
  text : String
  pattern : List Segment
  handler : String
  deriving DecidableEq, Repr

/-- Modelled from the spec: register compiles the pattern and appends a new
Binding under the keyword; no uniqueness check. A PatternError aborts the
registration for that binding only (spec 4.2, 7). -/
def register (reg : List Binding) (kw text handler : String) : List Binding :=
  match compilePattern text with
  | some segs => reg ++ [⟨kw, text, segs, handler⟩]
  | none => reg

/-- Registration folding over a list of (keyword, pattern text, handler id)
triples in registration order. -/
def registerAll (rs : List (String × String × String)) : List Binding :=
  rs.foldl (fun reg r => register reg r.1 r.2.1 r.2.2) []

/-- The registrations performed by the step-definition files of the
repository, in load order (files in alphabetical order, decorators within a
file top to bottom; for stacked decorators the innermost registers first).
Pattern braces are written as the escapes x7b and x7d, single quotes as x27. -/
def registrations : List (String × String × String) := [
  ("step", "I wait for \x7bseconds:d\x7d seconds", "common_steps.step_wait"),
  ("step", "the system is ready", "common_steps.step_system_ready"),
  ("given", "a logged in user", "common_steps.step_given_logged_in_user"),
  ("step", "a logged in user", "common_steps.step_any_logged_in_user"),
  ("given", "the first number is \x7bnumber:d\x7d", "math_steps.step_given_first_number"),
  ("when", "I add \x7bnumber:d\x7d", "math_steps.step_when_add"),
  ("then", "the result is \x7bnumber:d\x7d", "math_steps.step_then_result"),
  ("given", "the price is \x7bprice:f\x7d", "math_steps.step_given_price"),
  ("when", "I apply a discount of \x7bpercent:f\x7d percent", "math_steps.step_when_discount"),
  ("then", "the final price is \x7bexpected:f\x7d", "math_steps.step_then_final_price"),
  ("given", "a rectangle with width \x7bwidth:d\x7d and height \x7bheight:d\x7d", "math_steps.step_given_rectangle"),
  ("when", "I calculate the area", "math_steps.step_when_calculate_area"),
  ("then", "the area is \x7bexpected:d\x7d", "math_steps.step_then_area"),
  ("given", "a product called \x7bproduct\x7d", "product_steps.step_given_product"),
  ("when", "I set the description to \x7bdescription\x7d", "product_steps.step_when_description"),
  ("then", "the product description is \x7bexpected\x7d", "product_steps.step_then_description"),
  ("given", "the first number is \x7bnumber:d\x7d", "steps.step_given_first_number"),
  ("when", "I add \x7bnumber:d\x7d", "steps.step_when_add"),
  ("then", "the result is \x7bnumber:d\x7d", "steps.step_then_result"),
  ("given", "the price is \x7bprice:f\x7d", "steps.step_given_price"),
  ("when", "I apply a discount of \x7bpercent:f\x7d percent", "steps.step_when_discount"),
  ("then", "the final price is \x7bexpected:f\x7d", "steps.step_then_final_price"),
  ("given", "a user named \x7bname:w\x7d", "steps.step_given_user"),
  ("when", "the user changes their name to \x7bnew_name:w\x7d", "steps.step_when_change_name"),
  ("then", "the user name is \x7bexpected_name:w\x7d", "steps.step_then_user_name"),
  ("given", "a product called \x7bproduct\x7d", "steps.step_given_product"),
  ("when", "I set the description to \x7bdescription\x7d", "steps.step_when_description"),
  ("then", "the product description is \x7bexpected\x7d", "steps.step_then_description"),
  ("step", "I wait for \x7bseconds:d\x7d seconds", "steps.step_wait"),
  ("step", "the system is ready", "steps.step_system_ready"),
  ("given", "a rectangle with width \x7bwidth:d\x7d and height \x7bheight:d\x7d", "steps.step_given_rectangle"),
  ("when", "I calculate the area", "steps.step_when_calculate_area"),
  ("then", "the area is \x7bexpected:d\x7d", "steps.step_then_area"),
  ("given", "a file named \x7bfilename\x7d exists", "steps.step_given_file"),
  ("when", "I search for pattern \x7bpattern\x7d", "steps.step_when_search"),
  ("then", "the result contains \x7bcount:d\x7d matches", "steps.step_then_matches"),
  ("given", "the message is \"\x7bmessage\x7d\"", "steps.step_given_message_double"),
  ("then", "the output shows \"\x7bexpected\x7d\"", "steps.step_then_output_double"),
  ("given", "the message is \x27\x7bmessage\x7d\x27", "steps.step_given_message_single"),
  ("then", "the output shows \x27\x7bexpected\x7d\x27", "steps.step_then_output_single"),
  ("given", "the value is \x27\x7bvalue\x7d\x27", "steps.step_given_value"),
  ("given", "the value is \"\x7bvalue\x7d\"", "steps.step_given_value"),
  ("then", "the value equals \x27\x7bexpected\x7d\x27", "steps.step_then_value_equals"),
  ("then", "the value equals \"\x7bexpected\x7d\"", "steps.step_then_value_equals"),
  ("given", "a file named \x7bfilename\x7d exists", "string_steps.step_given_file"),
  ("when", "I search for pattern \x7bpattern\x7d", "string_steps.step_when_search"),
  ("then", "the result contains \x7bcount:d\x7d matches", "string_steps.step_then_matches"),
  ("given", "the message is \"\x7bmessage\x7d\"", "string_steps.step_given_message_double"),
  ("then", "the output shows \"\x7bexpected\x7d\"", "string_steps.step_then_output_double"),
  ("given", "the message is \x27\x7bmessage\x7d\x27", "string_steps.step_given_message_single"),
  ("then", "the output shows \x27\x7bexpected\x7d\x27", "string_steps.step_then_output_single"),
  ("given", "the value is \x27\x7bvalue\x7d\x27", "string_steps.step_given_value"),
  ("given", "the value is \"\x7bvalue\x7d\"", "string_steps.step_given_value"),
  ("then", "the value equals \x27\x7bexpected\x7d\x27", "string_steps.step_then_value_equals"),
  ("then", "the value equals \"\x7bexpected\x7d\"", "string_steps.step_then_value_equals"),
  ("given", "a sample text loaded into the system", "string_steps.step_given_sample_text"),
  ("then", "the system processes the text", "string_steps.step_then_process_text"),
  ("given", "a user named \x7bname:w\x7d", "user_steps.step_given_user"),
  ("when", "the user changes their name to \x7bnew_name:w\x7d", "user_steps.step_when_change_name"),
  ("then", "the user name is \x7bexpected_name:w\x7d", "user_steps.step_then_user_name")]

/-- The Registry built from the repository's step-definition files. -/
def theRegistry : List Binding := registerAll registrations

/-- Modelled from the spec: all Bindings under a keyword whose pattern
matches the sentence, with their extracted arguments, in registration
order (spec 4.2). -/
def matchesUnder (reg : List Binding) (kw : String) (s : List Char) :
    List (Binding × List (String × PyVal)) :=
  (reg.filter (fun b => b.keyword == kw)).filterMap
    (fun b => (matchSegs b.pattern s).map (fun a => (b, a)))

/-- Modelled from the spec: resolve returns every match under the specific
keyword, in registration order; only when that set is empty does it fall
back to the Bindings registered under the wildcard keyword step (spec 4.2). -/
def resolve (reg : List Binding) (kw : String) (sentence : String) :
    List (Binding × List (String × PyVal)) :=
  if (matchesUnder reg kw sentence.data).isEmpty then
    matchesUnder reg "step" sentence.data
  else matchesUnder reg kw sentence.data

example : theRegistry.length = 60 := by decide

example :
    (resolve theRegistry "then" "the system is ready").map
      (fun p => (p.1.keyword, p.1.handler, p.2)) =
    [("step", "common_steps.step_system_ready", []),
     ("step", "steps.step_system_ready", [])] := by decide

example :
    (resolve theRegistry "given" "a logged in user").map
      (fun p => (p.1.keyword, p.1.handler, p.2)) =
    [("given", "common_steps.step_given_logged_in_user", [])] := by decide

example :
    (resolve theRegistry "given" "the first number is 5").map
      (fun p => (p.1.handler, p.2)) =
    [("math_steps.step_given_first_number", [("number", PyVal.int 5)]),
     ("steps.step_given_first_number", [("number", PyVal.int 5)])] := by decide

example :
    (resolve theRegistry "given" "the value is \"abc\"").map
      (fun p => (p.1.text, p.1.handler, p.2)) =
    [("the value is \"\x7bvalue\x7d\"", "steps.step_given_value", [("value", PyVal.str "abc")]),
     ("the value is \"\x7bvalue\x7d\"", "string_steps.step_given_value", [("value", PyVal.str "abc")])] := by decide

example : resolve theRegistry "when" "I wait for five seconds" = [] := by decide

/-- The values stored as ExecutionContext attributes: plain Python values or
the string-keyed dicts the step files build. -/
inductive CtxVal where
  | val : PyVal → CtxVal
  | dict : List (String × PyVal) → CtxVal
  deriving DecidableEq, Repr

/-- The ExecutionContext: a mutable free-form attribute store, modelled as a
map from attribute name to optional value (spec section 3). -/
abbrev Ctx := String → Option CtxVal

/-- A fresh per-scenario context with no attributes set. -/
def emptyCtx : Ctx := fun _ => none

/-- Attribute assignment on the ExecutionContext. -/
def setA (ctx : Ctx) (a : String) (v : CtxVal) : Ctx :=
  fun x => if x = a then some v else ctx x

/-- The ways an invoked handler body can raise: a missing context attribute,
a failed assert, a type mismatch, a missing dict key. -/
inductive HandlerErr where
  | attributeError : String → HandlerErr
  | assertionError : HandlerErr
  | typeError : HandlerErr
  | keyError : String → HandlerErr
  deriving DecidableEq, Repr

/-- Python equality between plain values: structural, with numeric
promotion between int and float. -/
def pyEq : PyVal → PyVal → Bool
  | PyVal.int a, PyVal.num b => ((a : ℚ) == b)
  | PyVal.num a, PyVal.int b => (a == (b : ℚ))
  | a, b => a == b

/-- Dict lookup by key. -/
def dictGet (d : List (String × PyVal)) (k : String) : Option PyVal :=
  (d.find? (fun p => p.1 == k)).map (·.2)

/-- Dict assignment by key: replaces in place, or appends a new entry. -/
def dictSet (d : List (String × PyVal)) (k : String) (v : PyVal) :
    List (String × PyVal) :=
  if (d.find? (fun p => p.1 == k)).isSome then
    d.map (fun p => if p.1 == k then (p.1, v) else p)
  else d ++ [(k, v)]

/-- From common_steps.py: time.sleep only, no context change (real time is
not modelled). -/
def step_wait (ctx : Ctx) (seconds : Int) : Ctx := ctx

/-- From common_steps.py and steps.py: sets system_ready to True. -/
def step_system_ready (ctx : Ctx) : Ctx :=
  setA ctx "system_ready" (CtxVal.val (PyVal.bool true))

/-- From common_steps.py: the given-keyword login step. -/
def step_given_logged_in_user (ctx : Ctx) : Ctx :=
  setA (setA ctx "user_logged_in" (CtxVal.val (PyVal.bool true)))
    "login_source" (CtxVal.val (PyVal.str "given"))

/-- From common_steps.py: the step-keyword login step. -/
def step_any_logged_in_user (ctx : Ctx) : Ctx :=
  setA (setA ctx "user_logged_in" (CtxVal.val (PyVal.bool true)))
    "login_source" (CtxVal.val (PyVal.str "step"))

/-- From math_steps.py and steps.py: sets first_number. -/
def step_given_first_number (ctx : Ctx) (number : Int) : Ctx :=
  setA ctx "first_number" (CtxVal.val (PyVal.int number))

/-- From math_steps.py and steps.py: result = first_number + number; reading
a missing attribute raises AttributeError, adding to a non-number raises
TypeError. -/
def step_when_add (ctx : Ctx) (number : Int) : Except HandlerErr Ctx :=
  match ctx "first_number" with
  | some (CtxVal.val (PyVal.int m)) =>
    Except.ok (setA ctx "result" (CtxVal.val (PyVal.int (m + number))))
  | some (CtxVal.val (PyVal.num q)) =>
    Except.ok (setA ctx "result" (CtxVal.val (PyVal.num (q + number))))
  | some _ => Except.error HandlerErr.typeError
  | none => Except.error (HandlerErr.attributeError "first_number")

/-- From math_steps.py and steps.py: assert result == number. -/
def step_then_result (ctx : Ctx) (number : Int) : Except HandlerErr Ctx :=
  match ctx "result" with
  | some (CtxVal.val v) =>
    if pyEq v (PyVal.int number) then Except.ok ctx
    else Except.error HandlerErr.assertionError
  | some (CtxVal.dict _) => Except.error HandlerErr.assertionError
  | none => Except.error (HandlerErr.attributeError "result")

/-- From math_steps.py and steps.py: sets price. -/
def step_given_price (ctx : Ctx) (price : ℚ) : Ctx :=
  setA ctx "price" (CtxVal.val (PyVal.num price))

/-- From math_steps.py and steps.py: price = price * (1 - percent / 100). -/
def step_when_discount (ctx : Ctx) (percent : ℚ) : Except HandlerErr Ctx :=
  match ctx "price" with
  | some (CtxVal.val (PyVal.num q)) =>
    Except.ok (setA ctx "price" (CtxVal.val (PyVal.num (q * (1 - percent / 100)))))
  | some (CtxVal.val (PyVal.int m)) =>
    Except.ok (setA ctx "price" (CtxVal.val (PyVal.num ((m : ℚ) * (1 - percent / 100)))))
  | some _ => Except.error HandlerErr.typeError
  | none => Except.error (HandlerErr.attributeError "price")

/-- From math_steps.py and steps.py: assert abs(price - expected) < 0.01. -/
def step_then_final_price (ctx : Ctx) (expected : ℚ) : Except HandlerErr Ctx :=
  match ctx "price" with
  | some (CtxVal.val (PyVal.num q)) =>
    if |q - expected| < 1 / 100 then Except.ok ctx
    else Except.error HandlerErr.assertionError
  | some (CtxVal.val (PyVal.int m)) =>
    if |(m : ℚ) - expected| < 1 / 100 then Except.ok ctx
    else Except.error HandlerErr.assertionError
  | some _ => Except.error HandlerErr.typeError
  | none => Except.error (HandlerErr.attributeError "price")

/-- From math_steps.py and steps.py: rectangle = width/height dict. -/
def step_given_rectangle (ctx : Ctx) (width height : Int) : Ctx :=
  setA ctx "rectangle"
    (CtxVal.dict [("width", PyVal.int width), ("height", PyVal.int height)])

/-- From math_steps.py and steps.py: area = width * height. -/
def step_when_calculate_area (ctx : Ctx) : Except HandlerErr Ctx :=
  match ctx "rectangle" with
  | some (CtxVal.dict d) =>
    match dictGet d "width", dictGet d "height" with
    | some (PyVal.int w), some (PyVal.int h) =>
      Except.ok (setA ctx "area" (CtxVal.val (PyVal.int (w * h))))
    | some _, some _ => Except.error HandlerErr.typeError
    | _, _ => Except.error (HandlerErr.keyError "width or height")
  | some (CtxVal.val _) => Except.error HandlerErr.typeError
  | none => Except.error (HandlerErr.attributeError "rectangle")

/-- From math_steps.py and steps.py: assert area == expected. -/
def step_then_area (ctx : Ctx) (expected : Int) : Except HandlerErr Ctx :=
  match ctx "area" with
  | some (CtxVal.val v) =>
    if pyEq v (PyVal.int expected) then Except.ok ctx
    else Except.error HandlerErr.assertionError
  | some (CtxVal.dict _) => Except.error HandlerErr.assertionError
  | none => Except.error (HandlerErr.attributeError "area")

/-- From product_steps.py and steps.py: product = name dict. -/
def step_given_product (ctx : Ctx) (product : String) : Ctx :=
  setA ctx "product" (CtxVal.dict [("name", PyVal.str product)])

/-- From product_steps.py and steps.py: product[description] = description. -/
def step_when_description (ctx : Ctx) (description : String) : Except HandlerErr Ctx :=
  match ctx "product" with
  | some (CtxVal.dict d) =>
    Except.ok (setA ctx "product" (CtxVal.dict (dictSet d "description" (PyVal.str description))))
  | some (CtxVal.val _) => Except.error HandlerErr.typeError
  | none => Except.error (HandlerErr.attributeError "product")

/-- From product_steps.py and steps.py: assert product[description] == expected. -/
def step_then_description (ctx : Ctx) (expected : String) : Except HandlerErr Ctx :=
  match ctx "product" with
  | some (CtxVal.dict d) =>
    match dictGet d "description" with
    | some v =>
      if pyEq v (PyVal.str expected) then Except.ok ctx
      else Except.error HandlerErr.assertionError
    | none => Except.error (HandlerErr.keyError "description")
  | some (CtxVal.val _) => Except.error HandlerErr.typeError
  | none => Except.error (HandlerErr.attributeError "product")

/-- From steps.py and user_steps.py: user = name dict. -/
def step_given_user (ctx : Ctx) (name : String) : Ctx :=
  setA ctx "user" (CtxVal.dict [("name", PyVal.str name)])

/-- From steps.py and user_steps.py: user[name] = new_name. -/
def step_when_change_name (ctx : Ctx) (new_name : String) : Except HandlerErr Ctx :=
  match ctx "user" with
  | some (CtxVal.dict d) =>
    Except.ok (setA ctx "user" (CtxVal.dict (dictSet d "name" (PyVal.str new_name))))
  | some (CtxVal.val _) => Except.error HandlerErr.typeError
  | none => Except.error (HandlerErr.attributeError "user")

/-- From steps.py and user_steps.py: assert user[name] == expected_name. -/
def step_then_user_name (ctx : Ctx) (expected_name : String) : Except HandlerErr Ctx :=
  match ctx "user" with
  | some (CtxVal.dict d) =>
    match dictGet d "name" with
    | some v =>
      if pyEq v (PyVal.str expected_name) then Except.ok ctx
      else Except.error HandlerErr.assertionError
    | none => Except.error (HandlerErr.keyError "name")
  | some (CtxVal.val _) => Except.error HandlerErr.typeError
  | none => Except.error (HandlerErr.attributeError "user")

/-- From steps.py and string_steps.py: sets filename. -/
def step_given_file (ctx : Ctx) (filename : String) : Ctx :=
  setA ctx "filename" (CtxVal.val (PyVal.str filename))

/-- From steps.py and string_steps.py: sets pattern. -/
def step_when_search (ctx : Ctx) (pat : String) : Ctx :=
  setA ctx "pattern" (CtxVal.val (PyVal.str pat))

/-- From steps.py and string_steps.py: sets match_count (no assertion). -/
def step_then_matches (ctx : Ctx) (count : Int) : Ctx :=
  setA ctx "match_count" (CtxVal.val (PyVal.int count))

/-- From steps.py and string_steps.py: sets message (double-quote form). -/
def step_given_message_double (ctx : Ctx) (message : String) : Ctx :=
  setA ctx "message" (CtxVal.val (PyVal.str message))

/-- From steps.py and string_steps.py: assert message == expected. -/
def step_then_output_double (ctx : Ctx) (expected : String) : Except HandlerErr Ctx :=
  match ctx "message" with
  | some (CtxVal.val v) =>
    if pyEq v (PyVal.str expected) then Except.ok ctx
    else Except.error HandlerErr.assertionError
  | some (CtxVal.dict _) => Except.error HandlerErr.assertionError
  | none => Except.error (HandlerErr.attributeError "message")

/-- From steps.py and string_steps.py: sets message (single-quote form). -/
def step_given_message_single (ctx : Ctx) (message : String) : Ctx :=
  setA ctx "message" (CtxVal.val (PyVal.str message))

/-- From steps.py and string_steps.py: assert message == expected. -/
def step_then_output_single (ctx : Ctx) (expected : String) : Except HandlerErr Ctx :=
  match ctx "message" with
  | some (CtxVal.val v) =>
    if pyEq v (PyVal.str expected) then Except.ok ctx
    else Except.error HandlerErr.assertionError
  | some (CtxVal.dict _) => Except.error HandlerErr.assertionError
  | none => Except.error (HandlerErr.attributeError "message")

/-- From steps.py and string_steps.py: sets value (stacked decorators). -/
def step_given_value (ctx : Ctx) (value : String) : Ctx :=
  setA ctx "value" (CtxVal.val (PyVal.str value))

/-- From steps.py and string_steps.py: assert value == expected. -/
def step_then_value_equals (ctx : Ctx) (expected : String) : Except HandlerErr Ctx :=
  match ctx "value" with
  | some (CtxVal.val v) =>
    if pyEq v (PyVal.str expected) then Except.ok ctx
    else Except.error HandlerErr.assertionError
  | some (CtxVal.dict _) => Except.error HandlerErr.assertionError
  | none => Except.error (HandlerErr.attributeError "value")

/-- From string_steps.py: text_content = text. -/
def step_given_sample_text (ctx : Ctx) : Except HandlerErr Ctx :=
  match ctx "text" with
  | some v => Except.ok (setA ctx "text_content" v)
  | none => Except.error (HandlerErr.attributeError "text")

/-- From string_steps.py: assert text_content is not None. -/
def step_then_process_text (ctx : Ctx) : Except HandlerErr Ctx :=
  match ctx "text_content" with
  | some _ => Except.ok ctx
  | none => Except.error (HandlerErr.attributeError "text_content")

/-- Characters after the last dot: the running component is accumulated in
reverse and reset at each dot. -/
def baseChars : List Char → List Char → List Char
  | cur, [] => cur.reverse
  | _, '.' :: rest => baseChars [] rest
  | cur, c :: rest => baseChars (c :: cur) rest

/-- Function name of a module-qualified handler id. -/
def baseName (h : String) : String := String.mk (baseChars [] h.data)

/-- Modelled from the spec: invocation passes the ExecutionContext first and
the extracted values positionally, in pattern left-to-right order (spec 4.3).
Same-named handlers in different fixture files have identical bodies, so
dispatch is by function name; an argument shape that does not fit the
signature raises TypeError. -/
def applyHandler (h : String) (args : List PyVal) (ctx : Ctx) : Except HandlerErr Ctx :=
  match baseName h, args with
  | "step_wait", [PyVal.int n] => Except.ok (step_wait ctx n)
  | "step_system_ready", [] => Except.ok (step_system_ready ctx)
  | "step_given_logged_in_user", [] => Except.ok (step_given_logged_in_user ctx)
  | "step_any_logged_in_user", [] => Except.ok (step_any_logged_in_user ctx)
  | "step_given_first_number", [PyVal.int n] => Except.ok (step_given_first_number ctx n)
  | "step_when_add", [PyVal.int n] => step_when_add ctx n
  | "step_then_result", [PyVal.int n] => step_then_result ctx n
  | "step_given_price", [PyVal.num q] => Except.ok (step_given_price ctx q)
  | "step_when_discount", [PyVal.num q] => step_when_discount ctx q
  | "step_then_final_price", [PyVal.num q] => step_then_final_price ctx q
  | "step_given_rectangle", [PyVal.int w, PyVal.int h] => Except.ok (step_given_rectangle ctx w h)
  | "step_when_calculate_area", [] => step_when_calculate_area ctx
  | "step_then_area", [PyVal.int n] => step_then_area ctx n
  | "step_given_product", [PyVal.str s] => Except.ok (step_given_product ctx s)
  | "step_when_description", [PyVal.str s] => step_when_description ctx s
  | "step_then_description", [PyVal.str s] => step_then_description ctx s
  | "step_given_user", [PyVal.str s] => Except.ok (step_given_user ctx s)
  | "step_when_change_name", [PyVal.str s] => step_when_change_name ctx s
  | "step_then_user_name", [PyVal.str s] => step_then_user_name ctx s
  | "step_given_file", [PyVal.str s] => Except.ok (step_given_file ctx s)
  | "step_when_search", [PyVal.str s] => Except.ok (step_when_search ctx s)
  | "step_then_matches", [PyVal.int n] => Except.ok (step_then_matches ctx n)
  | "step_given_message_double", [PyVal.str s] => Except.ok (step_given_message_double ctx s)
  | "step_then_output_double", [PyVal.str s] => step_then_output_double ctx s
  | "step_given_message_single", [PyVal.str s] => Except.ok (step_given_message_single ctx s)
  | "step_then_output_single", [PyVal.str s] => step_then_output_single ctx s
  | "step_given_value", [PyVal.str s] => Except.ok (step_given_value ctx s)
  | "step_then_value_equals", [PyVal.str s] => step_then_value_equals ctx s
  | "step_given_sample_text", [] => step_given_sample_text ctx
  | "step_then_process_text", [] => step_then_process_text ctx
  | _, _ => Except.error HandlerErr.typeError

/-- The errors the resolution and invocation machinery surfaces to the
scenario runner: an undefined step, or a handler failure carrying the
sentence, the keyword and the underlying cause (spec 7). -/
inductive RunError where
  | noMatchError : RunError
  | stepFailure : String → String → HandlerErr → RunError
  deriving DecidableEq, Repr

/-- Modelled from the spec: execute one step. Resolution failure surfaces
NoMatchError; execution uses the first match in registration order; a
handler failure propagates as a StepFailure carrying the sentence, the
keyword and the cause, with no retry (spec 4.2, 4.3, 7). -/
def runStep (reg : List Binding) (kw sentence : String) (ctx : Ctx) :
    Except RunError Ctx :=
  match resolve reg kw sentence with
  | [] => Except.error RunError.noMatchError
  | (b, args) :: _ =>
    match applyHandler b.handler (args.map Prod.snd) ctx with
    | Except.ok c => Except.ok c
    | Except.error e => Except.error (RunError.stepFailure sentence kw e)

/-- Modelled from the spec: run a scenario's (keyword, sentence) steps in
order against one context; the first failing step stops the scenario and the
remaining steps are skipped (spec 5, 7). -/
def runScenario (reg : List Binding) (steps : List (String × String)) (ctx : Ctx) :
    Ctx × Option RunError :=
  match steps with
  | [] => (ctx, none)
  | (kw, s) :: rest =>
    match runStep reg kw s ctx with
    | Except.ok c2 => runScenario reg rest c2
    | Except.error e => (ctx, some e)

/-- Modelled from the spec: each scenario runs against its own fresh
context; scenarios are independent (spec 5). -/
def runScenarios (reg : List Binding) (scenarios : List (List (String × String))) :
    List (Ctx × Option RunError) :=
  scenarios.map (fun st => runScenario reg st emptyCtx)

example :
    (runScenario theRegistry
      [("given", "the first number is 2"), ("when", "I add 3"),
       ("then", "the result is 6"), ("then", "the result is 5")] emptyCtx).2 =
    some (RunError.stepFailure "the result is 6" "then" HandlerErr.assertionError) := by
  decide

example :
    ((runScenario theRegistry
      [("given", "the first number is 2"), ("when", "I add 3"),
       ("then", "the result is 5")] emptyCtx).1 "result") =
    some (CtxVal.val (PyVal.int 5)) := by decide

/-- Membership in the per-keyword match set is exactly registry membership
under that keyword together with a successful pattern match. -/
theorem mem_matchesUnder (reg : List Binding) (kw : String) (s : List Char)
    (b : Binding) (a : List (String × PyVal)) :
    (b, a) ∈ matchesUnder reg kw s ↔
      b ∈ reg ∧ b.keyword = kw ∧ matchSegs b.pattern s = some a := by
  unfold matchesUnder
  rw [List.mem_filterMap]
  constructor
  · rintro ⟨x, hx, hfx⟩
    rw [List.mem_filter] at hx
    obtain ⟨a', ha', heq⟩ := Option.map_eq_some'.mp hfx
    rw [Prod.mk.injEq] at heq
    obtain ⟨rfl, rfl⟩ := heq
    exact ⟨hx.1, by simpa using hx.2, ha'⟩
  · rintro ⟨hb, hkw, hm⟩
    refine ⟨b, List.mem_filter.mpr ⟨hb, by simp [hkw]⟩, ?_⟩
    rw [hm]
    rfl

/-- The match set under a keyword is empty iff no registered binding under
that keyword matches the sentence. -/
theorem matchesUnder_eq_nil_iff (reg : List Binding) (kw : String) (s : List Char) :
    matchesUnder reg kw s = [] ↔
      ∀ b ∈ reg, b.keyword = kw → matchSegs b.pattern s = none := by
  constructor
  · intro h b hb hkw
    cases hm : matchSegs b.pattern s with
    | none => rfl
    | some a =>
      have : (b, a) ∈ matchesUnder reg kw s :=
        (mem_matchesUnder reg kw s b a).mpr ⟨hb, hkw, hm⟩
      rw [h] at this
      exact absurd this (List.not_mem_nil _)
  · intro h
    rw [List.eq_nil_iff_forall_not_mem]
    rintro ⟨b, a⟩ hmem
    obtain ⟨hb, hkw, hm⟩ := (mem_matchesUnder reg kw s b a).mp hmem
    rw [h b hb hkw] at hm
    exact Option.noConfusion hm

/-- C1: for every registered (keyword, pattern, handler) triple and every
sentence, resolve under the triple's keyword contains that Binding iff the
sentence conforms to the pattern's sequence of literal segments and
placeholders under the typed conversion rules, i.e. iff matchSegs succeeds
on it. -/
theorem resolve_mem_iff_conforms (b : Binding) (hb : b ∈ theRegistry) (sentence : String) :
    (∃ a, (b, a) ∈ resolve theRegistry b.keyword sentence) ↔
      (matchSegs b.pattern sentence.data).isSome := by
  constructor
  · rintro ⟨a, ha⟩
    unfold resolve at ha
    split at ha
    · obtain ⟨_, _, hm⟩ := (mem_matchesUnder _ _ _ _ _).mp ha
      rw [hm]
      rfl
    · obtain ⟨_, _, hm⟩ := (mem_matchesUnder _ _ _ _ _).mp ha
      rw [hm]
      rfl
  · intro h
    obtain ⟨a, ha⟩ := Option.isSome_iff_exists.mp h
    have hmem : (b, a) ∈ matchesUnder theRegistry b.keyword sentence.data :=
      (mem_matchesUnder _ _ _ _ _).mpr ⟨hb, rfl, ha⟩
    refine ⟨a, ?_⟩
    unfold resolve
    split
    · next hemp =>
      rw [List.isEmpty_iff] at hemp
      rw [hemp] at hmem
      exact absurd hmem (List.not_mem_nil _)
    · exact hmem

/-- The wait-step binding of common_steps.py, as it sits in the Registry. -/
def waitBinding : Binding :=
  ⟨"step", "I wait for \x7bseconds:d\x7d seconds",
    [Segment.lit ("I wait for ".data), Segment.ph "seconds" TypeTag.d,
     Segment.lit (" seconds".data)], "common_steps.step_wait"⟩

theorem resolve_mem_iff_conforms_witness :
    ∃ a, (waitBinding, a) ∈ resolve theRegistry waitBinding.keyword "I wait for 3 seconds" :=
  (resolve_mem_iff_conforms waitBinding (by decide) "I wait for 3 seconds").mpr (by decide)

/-- C2: resolve falls back to the wildcard step keyword exactly when no
specific-keyword Binding matches, and never consults it otherwise; concretely,
"the system is ready" under then has no then-match and resolves to the two
step-keyword bindings whose handler sets system_ready to True, while
"a logged in user" under given resolves to the given-keyword Binding only. -/
theorem wildcard_fallback_spec :
    (∀ (reg : List Binding) (kw sentence : String),
      (matchesUnder reg kw sentence.data = [] →
        resolve reg kw sentence = matchesUnder reg "step" sentence.data) ∧
      (matchesUnder reg kw sentence.data ≠ [] →
        resolve reg kw sentence = matchesUnder reg kw sentence.data)) ∧
    matchesUnder theRegistry "then" ("the system is ready").data = [] ∧
    (resolve theRegistry "then" "the system is ready").map
      (fun p => (p.1.keyword, p.1.handler, p.2)) =
      [("step", "common_steps.step_system_ready", []),
       ("step", "steps.step_system_ready", [])] ∧
    (∀ ctx : Ctx, (step_system_ready ctx) "system_ready" =
      some (CtxVal.val (PyVal.bool true))) ∧
    (resolve theRegistry "given" "a logged in user").map
      (fun p => (p.1.keyword, p.1.handler, p.2)) =
      [("given", "common_steps.step_given_logged_in_user", [])] := by
  refine ⟨?_, by decide, by decide, ?_, by decide⟩
  · intro reg kw sentence
    constructor
    · intro h
      unfold resolve
      rw [if_pos (List.isEmpty_iff.mpr h)]
    · intro h
      unfold resolve
      rw [if_neg (fun hemp => h (List.isEmpty_iff.mp hemp))]
  · intro ctx
    rfl

theorem wildcard_fallback_spec_witness :
    resolve theRegistry "then" "the system is ready" =
      matchesUnder theRegistry "step" ("the system is ready").data ∧
    resolve theRegistry "given" "a logged in user" =
      matchesUnder theRegistry "given" ("a logged in user").data :=
  ⟨(wildcard_fallback_spec.1 theRegistry "then" "the system is ready").1 (by decide),
   (wildcard_fallback_spec.1 theRegistry "given" "a logged in user").2 (by decide)⟩

/-- C3: typed conversions round-trip: a d slot on "42" yields integer 42; an
f slot on "19.99" yields 19.99 (as a rational); a w slot rejects any slot
containing a space; an untyped slot takes arbitrary text including spaces,
non-greedily bounded by the next literal; and resolving "the first number
is 5" under given extracts number = 5. -/
theorem typed_conversion_roundtrip :
    convertSlot TypeTag.d ("42".data) = some (PyVal.int 42) ∧
    (convertSlot TypeTag.f ("19.99".data) = some (PyVal.num (mkRat 1999 100)) ∧
      mkRat 1999 100 = (19.99 : ℚ)) ∧
    (∀ slot : List Char, ' ' ∈ slot → convertSlot TypeTag.w slot = none) ∧
    (compilePattern "I set the description to \x7bdescription\x7d").bind
      (fun segs => matchSegs segs ("I set the description to a red mug").data) =
      some [("description", PyVal.str "a red mug")] ∧
    (compilePattern "a file named \x7bfilename\x7d exists").bind
      (fun segs => matchSegs segs ("a file named notes.txt exists").data) =
      some [("filename", PyVal.str "notes.txt")] ∧
    resolve theRegistry "given" "the first number is 5" ≠ [] ∧
    (∀ p ∈ resolve theRegistry "given" "the first number is 5",
      p.2 = [("number", PyVal.int 5)]) := by
  refine ⟨by decide, ⟨by decide, by rw [Rat.mkRat_eq_div]; norm_num⟩, ?_,
    by decide, by decide, by decide, by decide⟩
  intro slot hmem
  show (if slot ≠ [] ∧ slot.all isWordChar then
    some (PyVal.str (String.mk slot)) else none) = none
  rw [if_neg]
  rintro ⟨hne, hall⟩
  exact absurd (List.all_eq_true.mp hall ' ' hmem) (by decide)

theorem typed_conversion_roundtrip_witness :
    convertSlot TypeTag.w ("a b".data) = none :=
  typed_conversion_roundtrip.2.2.1 ("a b".data) (by decide)

/-- C4: the stacked decorators on step_given_value produce two independent
Bindings (single- and double-quoted pattern texts); the sentence with double
quotes matches only the double-quoted form, extracting value = "abc", and
does not match the single-quoted form. -/
theorem stacked_decorators_quote_forms :
    (theRegistry.filter (fun b => b.handler == "steps.step_given_value")).map
      (fun b => (b.keyword, b.text)) =
      [("given", "the value is \x27\x7bvalue\x7d\x27"),
       ("given", "the value is \"\x7bvalue\x7d\"")] ∧
    (compilePattern "the value is \"\x7bvalue\x7d\"").bind
      (fun segs => matchSegs segs ("the value is \"abc\"").data) =
      some [("value", PyVal.str "abc")] ∧
    (compilePattern "the value is \x27\x7bvalue\x7d\x27").bind
      (fun segs => matchSegs segs ("the value is \"abc\"").data) = none ∧
    (resolve theRegistry "given" "the value is \"abc\"").map
      (fun p => (p.1.text, p.1.handler, p.2)) =
      [("the value is \"\x7bvalue\x7d\"", "steps.step_given_value",
        [("value", PyVal.str "abc")]),
       ("the value is \"\x7bvalue\x7d\"", "string_steps.step_given_value",
        [("value", PyVal.str "abc")])] :=
  ⟨by decide, by decide, by decide, by decide⟩

/-- C5: registering the same (keyword, pattern text) pair twice with
different handlers keeps two distinct Bindings in the Registry, and resolve
returns both for a matching sentence, in registration order (math_steps.py
loads before steps.py). -/
theorem duplicate_registrations_preserved :
    (theRegistry.filter (fun b =>
      b.keyword == "given" && b.text == "the first number is \x7bnumber:d\x7d")).map
      (fun b => b.handler) =
      ["math_steps.step_given_first_number", "steps.step_given_first_number"] ∧
    (resolve theRegistry "given" "the first number is 5").map
      (fun p => (p.1.handler, p.2)) =
      [("math_steps.step_given_first_number", [("number", PyVal.int 5)]),
       ("steps.step_given_first_number", [("number", PyVal.int 5)])] :=
  ⟨by decide, by decide⟩

/-- C6: the discount pattern is registered under when, and invoking the
handler with extracted percent 20 on a context whose price is 100 yields a
price of 80, within absolute tolerance 1/100 (the handler computes
price * (1 - percent / 100)). -/
theorem discount_handler_price :
    (theRegistry.filter (fun b =>
      b.text == "I apply a discount of \x7bpercent:f\x7d percent")).map
      (fun b => (b.keyword, b.handler)) =
      [("when", "math_steps.step_when_discount"),
       ("when", "steps.step_when_discount")] ∧
    ∃ (ctx2 : Ctx) (q : ℚ),
      step_when_discount (setA emptyCtx "price" (CtxVal.val (PyVal.num 100))) 20 =
        Except.ok ctx2 ∧
      ctx2 "price" = some (CtxVal.val (PyVal.num q)) ∧
      |q - 80| < 1 / 100 := by
  refine ⟨by decide, ?_⟩
  refine ⟨_, _, rfl, rfl, ?_⟩
  norm_num

/-- C7: a Binding whose extraction fails conversion (for example a seconds:d
slot occupied by non-digit text) is treated exactly as a non-match: it never
appears in the resolve result, while every other candidate that does match
still appears; concretely "I wait for five seconds" matches nothing, and
"the result contains 3 matches" still resolves to both count bindings. -/
theorem conversion_failure_nonmatch :
    (∀ (reg : List Binding) (kw sentence : String) (b : Binding)
        (a : List (String × PyVal)),
      (matchSegs b.pattern sentence.data = none →
        (b, a) ∉ resolve reg kw sentence) ∧
      (b ∈ reg → b.keyword = kw → matchSegs b.pattern sentence.data = some a →
        (b, a) ∈ resolve reg kw sentence)) ∧
    (compilePattern "I wait for \x7bseconds:d\x7d seconds").bind
      (fun segs => matchSegs segs ("I wait for five seconds").data) = none ∧
    resolve theRegistry "when" "I wait for five seconds" = [] ∧
    resolve theRegistry "then" "the result contains many matches" = [] ∧
    (resolve theRegistry "then" "the result contains 3 matches").map
      (fun p => (p.1.handler, p.2)) =
      [("steps.step_then_matches", [("count", PyVal.int 3)]),
       ("string_steps.step_then_matches", [("count", PyVal.int 3)])] := by
  refine ⟨?_, by decide, by decide, by decide, by decide⟩
  intro reg kw sentence b a
  constructor
  · intro hnone hmem
    unfold resolve at hmem
    split at hmem
    · obtain ⟨_, _, hm⟩ := (mem_matchesUnder _ _ _ _ _).mp hmem
      rw [hnone] at hm
      exact Option.noConfusion hm
    · obtain ⟨_, _, hm⟩ := (mem_matchesUnder _ _ _ _ _).mp hmem
      rw [hnone] at hm
      exact Option.noConfusion hm
  · intro hb hkw hm
    have hmem : (b, a) ∈ matchesUnder reg kw sentence.data :=
      (mem_matchesUnder _ _ _ _ _).mpr ⟨hb, hkw, hm⟩
    unfold resolve
    split
    · next hemp =>
      rw [List.isEmpty_iff] at hemp
      rw [hemp] at hmem
      exact absurd hmem (List.not_mem_nil _)
    · exact hmem

theorem conversion_failure_nonmatch_witness :
    ((⟨"when", "x", [Segment.lit ['x']], "h"⟩ : Binding),
      ([] : List (String × PyVal))) ∉
      resolve theRegistry "when" "I wait for five seconds" :=
  (conversion_failure_nonmatch.1 theRegistry "when" "I wait for five seconds"
    ⟨"when", "x", [Segment.lit ['x']], "h"⟩ []).1 (by decide)

/-- The math_steps.py binding for "the result is number:d", as registered. -/
def resultBindingMath : Binding :=
  ⟨"then", "the result is \x7bnumber:d\x7d",
    [Segment.lit ("the result is ".data), Segment.ph "number" TypeTag.d],
    "math_steps.step_then_result"⟩

/-- The steps.py binding for "the result is number:d", as registered. -/
def resultBindingSteps : Binding :=
  ⟨"then", "the result is \x7bnumber:d\x7d",
    [Segment.lit ("the result is ".data), Segment.ph "number" TypeTag.d],
    "steps.step_then_result"⟩

/-- C8: when the resolved handler raises, the failure surfaces as a
StepFailure carrying the sentence, the keyword and the cause; the step is
not retried and no other Binding is invoked (the outcome is fixed by the
first match alone, whatever the tail); a failing step stops its scenario
with the context as it was, whatever the remaining steps; and each scenario
in a batch is computed from its own steps on a fresh context, unaffected by
the others. Concretely the failed assertion of "the result is 6" after
2 + 3 fails the scenario, skips the remaining steps and leaves result = 5. -/
theorem handler_failure_stepfailure :
    (∀ (reg : List Binding) (kw sentence : String) (ctx : Ctx) (b : Binding)
        (args : List (String × PyVal))
        (tail : List (Binding × List (String × PyVal))) (e : HandlerErr),
      resolve reg kw sentence = (b, args) :: tail →
      applyHandler b.handler (args.map Prod.snd) ctx = Except.error e →
      runStep reg kw sentence ctx =
        Except.error (RunError.stepFailure sentence kw e)) ∧
    (∀ (reg : List Binding) (kw sentence : String) (ctx : Ctx) (e : RunError)
        (rest : List (String × String)),
      runStep reg kw sentence ctx = Except.error e →
      runScenario reg ((kw, sentence) :: rest) ctx = (ctx, some e)) ∧
    (∀ (reg : List Binding) (pre : List (List (String × String)))
        (sc : List (String × String)) (post : List (List (String × String))),
      runScenarios reg (pre ++ sc :: post) =
        runScenarios reg pre ++ runScenario reg sc emptyCtx :: runScenarios reg post) ∧
    (runScenario theRegistry
      [("given", "the first number is 2"), ("when", "I add 3"),
       ("then", "the result is 6"), ("then", "the result is 5")] emptyCtx).2 =
      some (RunError.stepFailure "the result is 6" "then" HandlerErr.assertionError) ∧
    ((runScenario theRegistry
      [("given", "the first number is 2"), ("when", "I add 3"),
       ("then", "the result is 6"), ("then", "the result is 5")] emptyCtx).1 "result") =
      some (CtxVal.val (PyVal.int 5)) := by
  refine ⟨?_, ?_, ?_, by decide, by decide⟩
  · intro reg kw sentence ctx b args tail e hres happ
    unfold runStep
    rw [hres]
    show (match applyHandler b.handler (args.map Prod.snd) ctx with
      | Except.ok c => Except.ok c
      | Except.error e => Except.error (RunError.stepFailure sentence kw e)) =
      Except.error (RunError.stepFailure sentence kw e)
    rw [happ]
  · intro reg kw sentence ctx e rest h
    unfold runScenario
    rw [h]
  · intro reg pre sc post
    unfold runScenarios
    rw [List.map_append, List.map_cons]

theorem handler_failure_stepfailure_witness :
    runStep theRegistry "then" "the result is 6"
      (setA emptyCtx "result" (CtxVal.val (PyVal.int 5))) =
      Except.error (RunError.stepFailure "the result is 6" "then"
        HandlerErr.assertionError) :=
  handler_failure_stepfailure.1 theRegistry "then" "the result is 6"
    (setA emptyCtx "result" (CtxVal.val (PyVal.int 5)))
    resultBindingMath [("number", PyVal.int 6)]
    [(resultBindingSteps, [("number", PyVal.int 6)])] HandlerErr.assertionError
    (by decide) rfl

/-- C9: the handler of "I add number:d" reads first_number from the context:
whenever first_number holds an integer the invocation cannot fail and sets
result to their sum, the handler of "the first number is number:d"
establishes exactly that precondition, and without it the invocation fails
with an AttributeError for first_number (not a NoMatchError and not a
purpose-built precondition message). -/
theorem add_handler_precondition :
    (∀ (ctx : Ctx) (m n : Int),
      ctx "first_number" = some (CtxVal.val (PyVal.int m)) →
      step_when_add ctx n =
        Except.ok (setA ctx "result" (CtxVal.val (PyVal.int (m + n))))) ∧
    (∀ (ctx : Ctx) (n : Int),
      ctx "first_number" = none →
      step_when_add ctx n = Except.error (HandlerErr.attributeError "first_number")) ∧
    (∀ (ctx : Ctx) (m : Int),
      (step_given_first_number ctx m) "first_number" =
        some (CtxVal.val (PyVal.int m))) := by
  refine ⟨?_, ?_, ?_⟩
  · intro ctx m n h
    unfold step_when_add
    rw [h]
  · intro ctx n h
    unfold step_when_add
    rw [h]
  · intro ctx m
    show (if "first_number" = "first_number" then some (CtxVal.val (PyVal.int m))
      else ctx "first_number") = some (CtxVal.val (PyVal.int m))
    rw [if_pos rfl]

theorem add_handler_precondition_witness :
    step_when_add (step_given_first_number emptyCtx 2) 3 =
      Except.ok (setA (step_given_first_number emptyCtx 2) "result"
        (CtxVal.val (PyVal.int (2 + 3)))) :=
  add_handler_precondition.1 (step_given_first_number emptyCtx 2) 2 3 rfl

/-- C10: the handler of "the first number is number:d" assigns only the
first_number attribute; every other attribute of the context is unchanged. -/
theorem first_number_frame :
    ∀ (ctx : Ctx) (number : Int) (a : String),
      a ≠ "first_number" →
      (step_given_first_number ctx number) a = ctx a := by
  intro ctx number a h
  show (if a = "first_number" then some (CtxVal.val (PyVal.int number)) else ctx a) =
    ctx a
  rw [if_neg h]

theorem first_number_frame_witness :
    (step_given_first_number emptyCtx 7) "price" = emptyCtx "price" :=
  first_number_frame emptyCtx 7 "price" (by decide)
